import Mathlib

/-!
Verification of the One2Track GPS client (custom_components/one2track/client/gps_client.py).

The client is embedded shallowly: the HTTP transport is a stream of responses
(one per request, in order), the mutable fields `cookie`, `csrf` and
`account_id` of `GpsClient` become an explicit state record that every method
threads through, and Python exceptions become an `Except` error component that
carries the state at the moment the exception propagates.  Every request the
client issues is appended to a log, together with the session cookie that was
attached to it, so that invariants about *which* requests are made (and with
which cookie) can be stated.
-/

namespace One2Track

/-- Python `json.loads` results: the JSON values a device-list body can decode to.
Numbers are modelled as integers (no claim depends on floats). -/
inductive Json where
  | null
  | bool (b : Bool)
  | num (n : Int)
  | str (s : String)
  | arr (elems : List Json)
  | obj (fields : List (String × Json))

/-- Locate the leftmost occurrence of `sep` in `s`; return the part before it
and the part after it.  `none` when `sep` does not occur.  (Helper for the
embedding of Python `str.split`.) -/
def findSub (sep : List Char) : List Char → Option (List Char × List Char)
  | [] => none
  | c :: rest =>
    if sep.isPrefixOf (c :: rest) then some ([], (c :: rest).drop sep.length)
    else
      match findSub sep rest with
      | some (b, a) => some (c :: b, a)
      | none => none

/-- Fuelled worker for `pySplit`; the fuel only serves to make the recursion
structural, `pySplit` always supplies enough of it. -/
def pySplitFuel (sep : List Char) : Nat → List Char → List (List Char)
  | 0, s => [s]
  | fuel + 1, s =>
    match findSub sep s with
    | none => [s]
    | some (b, a) => b :: pySplitFuel sep fuel a

/-- Python `s.split(sep)` for a non-empty separator: cut `s` at every
(leftmost-first) occurrence of `sep`.  E.g. `"abab".split("ab") == ["","",""]`. -/
def pySplit (sep s : List Char) : List (List Char) :=
  pySplitFuel sep (s.length + 1) s

/-- Python `s.split(sep)` on `String`s. -/
def pySplitStr (sep s : String) : List String :=
  (pySplit sep.data s.data).map (fun l => String.mk l)

/-- Python `s.replace(old, new)` (all occurrences), via
`new.join(s.split(old))`, which is equivalent for a non-empty `old`. -/
def pyReplace (s old new : String) : String :=
  String.intercalate new (pySplitStr old s)

/-- Python `s.replace("=", "")`: drop every `'='` character. -/
def removeEq (s : List Char) : List Char :=
  s.filter (fun c => !(c == '='))

/-- An HTTP response as the client observes it: status code, headers, body
text, and the result of `json.loads` on the body (`none` when the body is not
valid JSON), since the JSON decoder is external library code. -/
structure Response where
  status : Nat
  headers : List (String × String)
  body : String
  jsonBody : Option Json

/-- The network: the n-th request issued by the client receives `net n`. -/
abbrev Net := Nat → Response

/-- A record of one request the client issued: the URL, whether it was a POST,
and the value of the session cookie attached to it (`""` when `self.cookie`
was empty, in which case `call_api` sends no `_iadmin` cookie). -/
structure Request where
  url : String
  isPost : Bool
  cookieSent : String
deriving DecidableEq

/-- The mutable session state of `GpsClient`: `self.cookie`, `self.csrf`
(empty string = absent) and `self.account_id` (`str | None`). -/
structure St where
  cookie : String
  csrf : String
  account_id : Option String
deriving DecidableEq

/-- Python exceptions that can propagate out of the client's methods. -/
inductive Err where
  | auth (msg : String)
  | index
  | key (k : String)
  | typeErr
deriving DecidableEq

/-- Result of running one client method: the Python return value or the
exception that escaped, the session state afterwards, the position in the
response stream, and the accumulated request log. -/
abbrev Res (α : Type) : Type := Except Err α × St × Nat × List Request

/-- `CONFIG["login_url"]`. -/
def login_url : String := "https://www.one2trackgps.com/auth/users/sign_in"

/-- `CONFIG["base_url"]`. -/
def base_url : String := "https://www.one2trackgps.com/"

/-- `CONFIG["device_url"]`. -/
def device_url : String := "https://www.one2trackgps.com/users/%account%/devices"

/-- `CONFIG["session_cookie"]`. -/
def session_cookie : String := "_iadmin"

/-- The literal marker `GpsClient.parse_csrf` splits the login-page HTML on. -/
def csrfMarker : String := "name=\"csrf-token\" content=\""

/-- Python truthiness of `self.account_id : str | None`: falsy when `None` or
the empty string. -/
def truthy : Option String → Bool
  | none => false
  | some s => !(s == "")

/-- `GpsClient.call_api`: issue one request, i.e. consume the next response of
the stream and log the request together with the cookie that was attached. -/
def call_api (net : Net) (url : String) (isPost : Bool) (st : St) (pos : Nat)
    (log : List Request) : Response × Nat × List Request :=
  (net pos, pos + 1, log ++ [⟨url, isPost, st.cookie⟩])

/-- `GpsClient.parse_cookie`: read the `Set-Cookie` header (empty result when
it is absent or empty), split its value on the session-cookie name `_iadmin`
(`IndexError` when the name does not occur), take the piece up to the next
`;` and strip every `=`. -/
def parse_cookie (headers : List (String × String)) : Except Err String :=
  match headers.lookup "Set-Cookie" with
  | none => .ok ""
  | some c =>
    if c = "" then .ok ""
    else
      match (pySplitStr session_cookie c).get? 1 with
      | none => .error .index
      | some part => .ok (String.mk (removeEq ((pySplitStr ";" part).headD "").data))

/-- `GpsClient.parse_csrf`: split the HTML on the csrf marker (`IndexError`
when the marker is absent) and take the following quote-delimited value. -/
def parse_csrf (html : String) : Except Err String :=
  match (pySplitStr csrfMarker html).get? 1 with
  | none => .error .index
  | some part => .ok ((pySplitStr "\"" part).headD "")

/-- `GpsClient.get_csrf`: GET the login page; on 200 store the scraped CSRF
token and the pre-login cookie, otherwise raise
`AuthenticationError("Login page unavailable")`. -/
def get_csrf (net : Net) (st : St) (pos : Nat) (log : List Request) : Res Unit :=
  let (resp, pos1, log1) := call_api net login_url false st pos log
  if resp.status = 200 then
    match parse_csrf resp.body with
    | .error e => (.error e, st, pos1, log1)
    | .ok tok =>
      match parse_cookie resp.headers with
      | .error e => (.error e, { st with csrf := tok }, pos1, log1)
      | .ok ck => (.ok (), { st with csrf := tok, cookie := ck }, pos1, log1)
  else
    (.error (.auth "Login page unavailable"), st, pos1, log1)

/-- `GpsClient.login`: POST the credentials; success is `302` plus a
`Set-Cookie` header, which overwrites the stored cookie (the debug log then
reads `headers['Location']`, a `KeyError` when absent); everything else raises
`AuthenticationError("Invalid username or password")`. -/
def login (net : Net) (st : St) (pos : Nat) (log : List Request) : Res Unit :=
  let (resp, pos1, log1) := call_api net login_url true st pos log
  if resp.status = 302 ∧ (resp.headers.lookup "Set-Cookie").isSome then
    match parse_cookie resp.headers with
    | .error e => (.error e, st, pos1, log1)
    | .ok ck =>
      match resp.headers.lookup "Location" with
      | none => (.error (.key "Location"), { st with cookie := ck }, pos1, log1)
      | some _ => (.ok (), { st with cookie := ck }, pos1, log1)
  else
    (.error (.auth "Invalid username or password"), st, pos1, log1)

/-- `GpsClient.get_user_id`: GET the base URL with redirects disabled, read
the `Location` header (`KeyError` when absent), take the 5th `/`-separated
segment (`IndexError` when missing) and store it as the account id. -/
def get_user_id (net : Net) (st : St) (pos : Nat) (log : List Request) : Res String :=
  let (resp, pos1, log1) := call_api net base_url false st pos log
  match resp.headers.lookup "Location" with
  | none => (.error (.key "Location"), st, pos1, log1)
  | some url =>
    match (pySplitStr "/" url).get? 4 with
    | none => (.error .index, st, pos1, log1)
    | some aid => (.ok aid, { st with account_id := some aid }, pos1, log1)

/-- `GpsClient._ensure_authenticated`: when cookie or csrf is empty run
`get_csrf` then `login`; afterwards, when the account id is falsy, run
`get_user_id`.  Exceptions propagate. -/
def ensure_authenticated (net : Net) (st : St) (pos : Nat) (log : List Request) :
    Res Unit :=
  let step1 : Res Unit :=
    if st.cookie = "" ∨ st.csrf = "" then
      match get_csrf net st pos log with
      | (.ok _, st1, pos1, log1) => login net st1 pos1 log1
      | (.error e, st1, pos1, log1) => (.error e, st1, pos1, log1)
    else (.ok (), st, pos, log)
  match step1 with
  | (.ok _, st2, pos2, log2) =>
    if truthy st2.account_id then (.ok (), st2, pos2, log2)
    else
      match get_user_id net st2 pos2 log2 with
      | (.ok _, st3, pos3, log3) => (.ok (), st3, pos3, log3)
      | (.error e, st3, pos3, log3) => (.error e, st3, pos3, log3)
  | (.error e, st2, pos2, log2) => (.error e, st2, pos2, log2)

/-- `x['device']` for one element of the decoded device list: a dictionary
yields the value under `"device"` (`none` = `KeyError` when absent); any
non-dictionary element raises (`none` = `TypeError`). -/
def deviceField : Json → Option Json
  | .obj fs => fs.lookup "device"
  | _ => none

/-- `list(map(lambda x: x['device'], devices))`: an array maps each element
through `x['device']` (`none` = `KeyError`/`TypeError` when an element is not
an object carrying `"device"`).  Iterating a dictionary yields its keys, so
an empty dictionary produces `[]` without raising while any key — a string —
raises `TypeError` when subscripted; iterating a string likewise yields `[]`
when empty and raises on the first character otherwise; every other value is
not iterable and raises. -/
def unwrapDevices : Json → Option (List Json)
  | .arr xs => xs.mapM deviceField
  | .obj fs => if fs.isEmpty then some [] else none
  | .str s => if s = "" then some [] else none
  | _ => none

/-- `GpsClient.get_device_data`: GET the device URL (the template with
`%account%` substituted; `self.account_id` being `None` makes
`str.replace` raise a `TypeError`).  On 200, decode the body and unwrap the
`device` wrappers — any decode/unwrap failure is caught and yields `None` with
the state untouched.  On any other status, clear cookie and csrf and return
the empty list. -/
def get_device_data (net : Net) (st : St) (pos : Nat) (log : List Request) :
    Res (Option (List Json)) :=
  match st.account_id with
  | none => (.error .typeErr, st, pos, log)
  | some acct =>
    let url := pyReplace device_url "%account%" acct
    let (resp, pos1, log1) := call_api net url false st pos log
    if resp.status = 200 then
      match resp.jsonBody with
      | none => (.ok none, st, pos1, log1)
      | some j =>
        match unwrapDevices j with
        | none => (.ok none, st, pos1, log1)
        | some ds => (.ok (some ds), st, pos1, log1)
    else
      (.ok (some []), { st with cookie := "", csrf := "" }, pos1, log1)

/-- `GpsClient.update`: when the cookie is empty, self-heal via
`_ensure_authenticated` (whose exceptions propagate — the call sits outside
the `try`), then fetch the device data; an `AuthenticationError` raised inside
the `try` block is swallowed, clearing cookie and csrf and returning `None`. -/
def update (net : Net) (st : St) (pos : Nat) (log : List Request) :
    Res (Option (List Json)) :=
  let step : Res Unit :=
    if st.cookie ≠ "" then (.ok (), st, pos, log)
    else ensure_authenticated net st pos log
  match step with
  | (.error e, st1, pos1, log1) => (.error e, st1, pos1, log1)
  | (.ok _, st1, pos1, log1) =>
    match get_device_data net st1 pos1 log1 with
    | (.ok r, st2, pos2, log2) => (.ok r, st2, pos2, log2)
    | (.error (.auth _), st2, pos2, log2) =>
      (.ok none, { st2 with cookie := "", csrf := "" }, pos2, log2)
    | (.error e, st2, pos2, log2) => (.error e, st2, pos2, log2)

/-- The per-device message-page URL the Python f-string builds. -/
def messages_url (device_id : String) : String :=
  "https://www.one2trackgps.com/devices/" ++ device_id ++ "/messages"

/-- `GpsClient.send_device_message`: ensure authentication, GET the per-device
message page (non-200 raises `AuthenticationError`), scrape the page-scoped
CSRF token (failure raises `AuthenticationError`), POST the message (non-200
raises `AuthenticationError`).  The unused `title` parameter is kept for
fidelity. -/
def send_device_message (net : Net) (st : St) (pos : Nat) (log : List Request)
    (device_id : String) (_message : String) (_title : Option String) : Res Unit :=
  match ensure_authenticated net st pos log with
  | (.error e, st1, pos1, log1) => (.error e, st1, pos1, log1)
  | (.ok _, st1, pos1, log1) =>
    let (resp, pos2, log2) := call_api net (messages_url device_id) false st1 pos1 log1
    if resp.status ≠ 200 then
      (.error (.auth "Unable to access message page"), st1, pos2, log2)
    else
      match parse_csrf resp.body with
      | .error _ => (.error (.auth "CSRF token missing"), st1, pos2, log2)
      | .ok _tok =>
        let (resp2, pos3, log3) := call_api net (messages_url device_id) true st1 pos2 log2
        if resp2.status ≠ 200 then
          (.error (.auth "Failed to send message"), st1, pos3, log3)
        else (.ok (), st1, pos3, log3)

/-! Helper lemmas about the split machinery and the flows. -/

theorem isPrefixOf_append_self (l t : List Char) : l.isPrefixOf (l ++ t) = true := by
  induction l with
  | nil => simp
  | cons a as ih => simp [ih]

theorem findSub_some_length (sep : List Char) (hsep : sep ≠ []) :
    ∀ s b a, findSub sep s = some (b, a) → a.length < s.length := by
  intro s
  induction s with
  | nil => intro b a h; simp [findSub] at h
  | cons c rest ih =>
    intro b a h
    rw [findSub] at h
    by_cases hp : sep.isPrefixOf (c :: rest) = true
    · rw [if_pos hp] at h
      simp only [Option.some.injEq, Prod.mk.injEq] at h
      obtain ⟨-, ha⟩ := h
      subst ha
      rw [List.length_drop]
      have hpos : 0 < sep.length := List.length_pos.mpr hsep
      exact Nat.sub_lt (by simp) hpos
    · rw [if_neg hp] at h
      cases hf : findSub sep rest with
      | none => rw [hf] at h; exact absurd h (by simp)
      | some p =>
        obtain ⟨b', a'⟩ := p
        rw [hf] at h
        simp only [Option.some.injEq, Prod.mk.injEq] at h
        obtain ⟨-, ha⟩ := h
        rw [← ha]
        exact Nat.lt_trans (ih b' a' hf) (by simp)

theorem pySplitFuel_congr (sep : List Char) (hsep : sep ≠ []) :
    ∀ (f₁ : Nat) (s : List Char) (f₂ : Nat), s.length < f₁ → s.length < f₂ →
      pySplitFuel sep f₁ s = pySplitFuel sep f₂ s := by
  intro f₁
  induction f₁ with
  | zero => intro s f₂ h1 _; exact absurd h1 (Nat.not_lt_zero _)
  | succ n ih =>
    intro s f₂ h1 h2
    cases f₂ with
    | zero => exact absurd h2 (Nat.not_lt_zero _)
    | succ m =>
      show pySplitFuel sep (n + 1) s = pySplitFuel sep (m + 1) s
      rw [pySplitFuel, pySplitFuel]
      cases hf : findSub sep s with
      | none => rfl
      | some p =>
        obtain ⟨b, a⟩ := p
        have hlen := findSub_some_length sep hsep s b a hf
        have hn : a.length < n := Nat.lt_of_lt_of_le hlen (Nat.lt_succ_iff.mp h1)
        have hm : a.length < m := Nat.lt_of_lt_of_le hlen (Nat.lt_succ_iff.mp h2)
        show b :: pySplitFuel sep n a = b :: pySplitFuel sep m a
        rw [ih a m hn hm]

theorem pySplit_of_none (sep s : List Char) (h : findSub sep s = none) :
    pySplit sep s = [s] := by
  rw [pySplit, pySplitFuel, h]

theorem pySplit_of_some (sep s b a : List Char) (hsep : sep ≠ [])
    (h : findSub sep s = some (b, a)) : pySplit sep s = b :: pySplit sep a := by
  have hlen := findSub_some_length sep hsep s b a h
  rw [pySplit, pySplitFuel, h]
  show b :: pySplitFuel sep s.length a = b :: pySplit sep a
  rw [pySplit, pySplitFuel_congr sep hsep (s.length) a (a.length + 1) hlen
    (Nat.lt_succ_self _)]

theorem findSub_append_self (c : Char) (cs x : List Char) :
    findSub (c :: cs) ((c :: cs) ++ x) = some ([], x) := by
  have hp : (c :: cs).isPrefixOf (c :: (cs ++ x)) = true := by
    have := isPrefixOf_append_self (c :: cs) x
    rwa [List.cons_append] at this
  rw [List.cons_append, findSub, if_pos hp]
  rw [← List.cons_append, List.drop_left]

theorem pySplit_append_self (c : Char) (cs x : List Char)
    (hocc : findSub (c :: cs) x = none) :
    pySplit (c :: cs) ((c :: cs) ++ x) = [[], x] := by
  rw [pySplit_of_some (c :: cs) _ [] x (by simp) (findSub_append_self c cs x),
    pySplit_of_none _ _ hocc]

theorem findSub_single_none (c : Char) (s : List Char) (h : c ∉ s) :
    findSub [c] s = none := by
  induction s with
  | nil => rfl
  | cons x xs ih =>
    rw [findSub]
    have hcx : c ≠ x := fun he => h (he ▸ List.mem_cons_self x xs)
    have hp : ([c].isPrefixOf (x :: xs)) = false := by
      simp [List.isPrefixOf, hcx]
    rw [hp]
    simp only [Bool.false_eq_true, if_false]
    rw [ih (fun hm => h (List.mem_cons_of_mem x hm))]

theorem findSub_single_of_notMem (c : Char) (a b : List Char) (h : c ∉ a) :
    findSub [c] (a ++ c :: b) = some (a, b) := by
  induction a with
  | nil =>
    rw [List.nil_append, findSub]
    have hp : ([c].isPrefixOf (c :: b)) = true := by simp [List.isPrefixOf]
    rw [if_pos hp]
    rfl
  | cons x xs ih =>
    rw [List.cons_append, findSub]
    have hcx : c ≠ x := fun he => h (he ▸ List.mem_cons_self x xs)
    have hp : ([c].isPrefixOf (x :: (xs ++ c :: b))) = false := by
      simp [List.isPrefixOf, hcx]
    rw [hp]
    simp only [Bool.false_eq_true, if_false]
    rw [ih (fun hm => h (List.mem_cons_of_mem x hm))]

theorem unwrapDevices_wrap (ds : List Json) :
    unwrapDevices (.arr (ds.map fun d => Json.obj [("device", d)])) = some ds := by
  rw [unwrapDevices]
  induction ds with
  | nil => rfl
  | cons d rest ih =>
    rw [List.map_cons, List.mapM_cons, ih]
    rfl

theorem ensure_authenticated_noop (net : Net) (st : St) (pos : Nat) (log : List Request)
    (h1 : st.cookie ≠ "") (h2 : st.csrf ≠ "") (h3 : truthy st.account_id = true) :
    ensure_authenticated net st pos log = (.ok (), st, pos, log) := by
  rw [ensure_authenticated]
  have hcond : ¬(st.cookie = "" ∨ st.csrf = "") := by
    rintro (h | h) <;> [exact h1 h; exact h2 h]
  simp only [if_neg hcond, h3, if_pos]

/-! Claim theorems. -/

/-- C3: on a non-200 device-list response, `update()` returns the empty
sequence (not `None`), clears the session cookie and csrf token, and leaves
the account id unchanged, so the next call re-authenticates. -/
theorem C3_update_non200_clears_and_returns_empty
    (net : Net) (st : St) (pos : Nat) (log : List Request) (acct : String)
    (hc : st.cookie ≠ "") (ha : st.account_id = some acct)
    (hs : (net pos).status ≠ 200) :
    update net st pos log =
      (.ok (some []), ⟨"", "", some acct⟩, pos + 1,
       log ++ [⟨pyReplace device_url "%account%" acct, false, st.cookie⟩]) := by
  rw [update]
  simp only [if_pos hc]
  rw [get_device_data, ha]
  simp only [call_api, if_neg hs]

/-- Concrete network for the C3 witness: every request gets a 401. -/
def cnetC3 : Net := fun _ => ⟨401, [], "", none⟩

/-- Witness for C3: a 401 device-list response with an authenticated state. -/
theorem C3_witness :
    update cnetC3 ⟨"ck", "tok", some "42"⟩ 0 [] =
      (.ok (some []), ⟨"", "", some "42"⟩, 1,
       [⟨pyReplace device_url "%account%" "42", false, "ck"⟩]) :=
  C3_update_non200_clears_and_returns_empty cnetC3 ⟨"ck", "tok", some "42"⟩ 0 [] "42"
    (by decide) rfl (by decide)

/-- C4: on a 200 device-list response whose body is not valid JSON, `update()`
returns `None` and the session state is left exactly as it was. -/
theorem C4_update_invalid_json_returns_none_state_untouched
    (net : Net) (st : St) (pos : Nat) (log : List Request) (acct : String)
    (hc : st.cookie ≠ "") (ha : st.account_id = some acct)
    (h200 : (net pos).status = 200) (hj : (net pos).jsonBody = none) :
    update net st pos log =
      (.ok none, st, pos + 1,
       log ++ [⟨pyReplace device_url "%account%" acct, false, st.cookie⟩]) := by
  rw [update]
  simp only [if_pos hc]
  rw [get_device_data, ha]
  simp only [call_api, if_pos h200, hj]

/-- Concrete network for the C4 witness: a 200 response whose body `json.loads`
rejects. -/
def cnetC4 : Net := fun _ => ⟨200, [], "this is not json", none⟩

/-- Witness for C4: a 200 response with an undecodable body. -/
theorem C4_witness :
    update cnetC4 ⟨"ck", "tok", some "42"⟩ 0 [] =
      (.ok none, ⟨"ck", "tok", some "42"⟩, 1,
       [⟨pyReplace device_url "%account%" "42", false, "ck"⟩]) :=
  C4_update_invalid_json_returns_none_state_untouched cnetC4 ⟨"ck", "tok", some "42"⟩
    0 [] "42" (by decide) rfl (by decide) rfl

/-- Concrete network for the C9 counterexample: a 200 response whose body is
the valid JSON `\x7b\x7d` — an empty object, not an array of device wrappers. -/
def cnetC9x : Net := fun _ => ⟨200, [], "", some (.obj [])⟩

/-- C9 counterexample: for the valid-JSON body of an empty object — which is
not an array of objects carrying `"device"` — the map iterates zero keys and
raises nothing, so `update()` returns the empty list, not `None`. -/
theorem C9_counterexample :
    update cnetC9x ⟨"ck", "tok", some "42"⟩ 0 [] =
      (.ok (some []), ⟨"ck", "tok", some "42"⟩, 1,
       [⟨pyReplace device_url "%account%" "42", false, "ck"⟩]) ∧
    (Except.ok (some []) : Except Err (Option (List Json))) ≠ .ok none :=
  ⟨rfl, fun h => Option.noConfusion (Except.ok.inj h)⟩

/-- C9 amended: on a 200 device-list response that is valid JSON on which the
device unwrap actually raises — a non-empty array with an element lacking
`"device"` or a non-object element, a non-empty object or string, or any
number/boolean/null — the error is swallowed like a parse failure:
`update()` returns `None` and the state is not cleared.  (For the degenerate
empty-iterable bodies — empty object, empty string, empty array — the map
iterates nothing and `update()` returns the empty list instead.) -/
theorem C9_update_wrong_shape_json_returns_none_state_untouched
    (net : Net) (st : St) (pos : Nat) (log : List Request) (acct : String) (j : Json)
    (hc : st.cookie ≠ "") (ha : st.account_id = some acct)
    (h200 : (net pos).status = 200) (hj : (net pos).jsonBody = some j)
    (hu : unwrapDevices j = none) :
    update net st pos log =
      (.ok none, st, pos + 1,
       log ++ [⟨pyReplace device_url "%account%" acct, false, st.cookie⟩]) := by
  rw [update]
  simp only [if_pos hc]
  rw [get_device_data, ha]
  simp only [call_api, if_pos h200, hj, hu]

/-- Concrete network for the C9 witness: a 200 response whose body is a JSON
array whose single element lacks the `"device"` key. -/
def cnetC9 : Net := fun _ => ⟨200, [], "", some (.arr [Json.obj [("x", Json.null)]])⟩

/-- Witness for C9: a JSON array whose element has no `"device"` key. -/
theorem C9_witness :
    update cnetC9 ⟨"ck", "tok", some "42"⟩ 0 [] =
      (.ok none, ⟨"ck", "tok", some "42"⟩, 1,
       [⟨pyReplace device_url "%account%" "42", false, "ck"⟩]) :=
  C9_update_wrong_shape_json_returns_none_state_untouched cnetC9 ⟨"ck", "tok", some "42"⟩
    0 [] "42" (.arr [Json.obj [("x", Json.null)]]) (by decide) rfl rfl rfl rfl

/-- C7: on a 200 device-list response whose body is a JSON array of objects
each wrapping a payload under the `"device"` key, `update()` returns the inner
payloads in the order of the response array. -/
theorem C7_update_unwraps_devices_in_order
    (net : Net) (st : St) (pos : Nat) (log : List Request) (acct : String)
    (ds : List Json)
    (hc : st.cookie ≠ "") (ha : st.account_id = some acct)
    (h200 : (net pos).status = 200)
    (hj : (net pos).jsonBody = some (.arr (ds.map fun d => Json.obj [("device", d)]))) :
    update net st pos log =
      (.ok (some ds), st, pos + 1,
       log ++ [⟨pyReplace device_url "%account%" acct, false, st.cookie⟩]) := by
  rw [update]
  simp only [if_pos hc]
  rw [get_device_data, ha]
  simp only [call_api, if_pos h200, hj, unwrapDevices_wrap]

/-- Concrete network for the C7 witness: a 200 response wrapping two device
payloads. -/
def cnetC7 : Net := fun _ =>
  ⟨200, [], "",
   some (.arr [Json.obj [("device", Json.str "u1")], Json.obj [("device", Json.str "u2")]])⟩

/-- Witness for C7: two wrapped devices come back unwrapped, in order. -/
theorem C7_witness :
    update cnetC7 ⟨"ck", "tok", some "42"⟩ 0 [] =
      (.ok (some [Json.str "u1", Json.str "u2"]), ⟨"ck", "tok", some "42"⟩, 1,
       [⟨pyReplace device_url "%account%" "42", false, "ck"⟩]) :=
  C7_update_unwraps_devices_in_order cnetC7 ⟨"ck", "tok", some "42"⟩ 0 [] "42"
    [Json.str "u1", Json.str "u2"] (by decide) rfl rfl rfl

/-- Concrete network for the C1 counterexample: the login page is down (500). -/
def cnetC1 : Net := fun _ => ⟨500, [], "", none⟩

/-- C1 counterexample: with an empty cookie and a failing Authentication Flow
(login page 500), `update()` neither returns `None` nor clears anything — the
`AuthenticationError` escapes, because `_ensure_authenticated` is called
outside the `try` block. -/
theorem C1_counterexample :
    update cnetC1 ⟨"", "", none⟩ 0 [] =
      (.error (.auth "Login page unavailable"), ⟨"", "", none⟩, 1,
       [⟨login_url, false, ""⟩]) := rfl

/-- C1 amended: when the self-heal Authentication Flow fails with
`AuthenticationError`, `update()` propagates that error to its caller (with
whatever state the failing flow left); the clear-and-return-`None` handler
only covers exceptions raised by the device-data fetch itself. -/
theorem C1_amended_auth_error_escapes_update
    (net : Net) (st st1 : St) (pos pos1 : Nat) (log log1 : List Request) (m : String)
    (hc : st.cookie = "")
    (he : ensure_authenticated net st pos log = (.error (.auth m), st1, pos1, log1)) :
    update net st pos log = (.error (.auth m), st1, pos1, log1) := by
  rw [update]
  have hc' : ¬st.cookie ≠ "" := by simp [hc]
  simp only [if_neg hc', he]

/-- Witness for the amended C1 at the concrete failing network. -/
theorem C1_amended_witness :
    update cnetC1 ⟨"", "", none⟩ 0 [] =
      (.error (.auth "Login page unavailable"), ⟨"", "", none⟩, 1,
       [⟨login_url, false, ""⟩]) :=
  C1_amended_auth_error_escapes_update cnetC1 ⟨"", "", none⟩ ⟨"", "", none⟩ 0 1 []
    [⟨login_url, false, ""⟩] "Login page unavailable" rfl rfl

/-- `parse_cookie` can only fail with an `IndexError`. -/
theorem parse_cookie_error_eq_index (headers : List (String × String)) (e : Err)
    (h : parse_cookie headers = .error e) : e = .index := by
  rw [parse_cookie] at h
  split at h
  · exact absurd h (by simp)
  · split at h
    · exact absurd h (by simp)
    · split at h
      · simp only [Except.error.injEq] at h
        exact h.symm
      · exact absurd h (by simp)

/-- Concrete network for the C2 counterexample: a 302 login response whose
`Set-Cookie` value does not contain `_iadmin`. -/
def cnetC2 : Net := fun _ =>
  ⟨302, [("Set-Cookie", "session=abc"), ("Location", "/home")], "", none⟩

/-- C2 counterexample: a 302 response with a `Set-Cookie` header is present,
yet `login()` does not succeed — it dies with an `IndexError` because the
header value lacks the `_iadmin` cookie name. -/
theorem C2_counterexample :
    (cnetC2 0).status = 302 ∧
    ((cnetC2 0).headers.lookup "Set-Cookie").isSome = true ∧
    login cnetC2 ⟨"", "", none⟩ 0 [] =
      (.error .index, ⟨"", "", none⟩, 1, [⟨login_url, true, ""⟩]) :=
  ⟨rfl, rfl, rfl⟩

/-- C2 amended: `login()` raises `AuthenticationError` with the
invalid-credentials message exactly for the responses that are not
(302 with `Set-Cookie`); on a 302-with-`Set-Cookie` response it never raises
`AuthenticationError`, and it succeeds — storing the freshly parsed cookie —
provided the cookie parse succeeds and a `Location` header is present
(otherwise an `IndexError`/`KeyError` escapes instead). -/
theorem C2_amended_login_success_detection
    (net : Net) (st : St) (pos : Nat) (log : List Request) :
    (¬((net pos).status = 302 ∧ ((net pos).headers.lookup "Set-Cookie").isSome = true) →
      login net st pos log =
        (.error (.auth "Invalid username or password"), st, pos + 1,
         log ++ [⟨login_url, true, st.cookie⟩])) ∧
    ((net pos).status = 302 → ((net pos).headers.lookup "Set-Cookie").isSome = true →
      (∀ m, (login net st pos log).1 ≠ .error (.auth m)) ∧
      (∀ ck loc, parse_cookie (net pos).headers = .ok ck →
        (net pos).headers.lookup "Location" = some loc →
        login net st pos log =
          (.ok (), { st with cookie := ck }, pos + 1,
           log ++ [⟨login_url, true, st.cookie⟩]))) := by
  constructor
  · intro hno
    rw [login]
    simp only [call_api]
    rw [if_neg hno]
  · intro h302 hsc
    constructor
    · intro m
      rw [login]
      simp only [call_api]
      rw [if_pos ⟨h302, hsc⟩]
      cases hpc : parse_cookie (net pos).headers with
      | error e =>
        have he := parse_cookie_error_eq_index (net pos).headers e hpc
        subst he
        simp
      | ok ck =>
        cases hloc : (net pos).headers.lookup "Location" with
        | none => simp
        | some loc => simp
    · intro ck loc hpc hloc
      rw [login]
      simp only [call_api]
      rw [if_pos ⟨h302, hsc⟩, hpc, hloc]

/-- Witness for the amended C2: a 200 login response (no redirect) yields the
invalid-credentials `AuthenticationError`. -/
def cnetC2w : Net := fun _ => ⟨200, [], "", none⟩

/-- Witness for the amended C2 at a concrete non-302 response. -/
theorem C2_amended_witness :
    login cnetC2w ⟨"", "tok", none⟩ 0 [] =
      (.error (.auth "Invalid username or password"), ⟨"", "tok", none⟩, 1,
       [⟨login_url, true, ""⟩]) :=
  (C2_amended_login_success_detection cnetC2w ⟨"", "tok", none⟩ 0 []).1 (by decide)

/-- C10: a `Set-Cookie` value without the `_iadmin` cookie name makes
`parse_cookie` raise an `IndexError`, and a login receiving such a (302)
response fails with that `IndexError` — which is not an `AuthenticationError`. -/
theorem C10_missing_cookie_name_raises_index_error :
    parse_cookie [("Set-Cookie", "sessionid=xyz")] = .error .index ∧
    login (fun _ => ⟨302, [("Set-Cookie", "sessionid=xyz"), ("Location", "/users/7/home")], "", none⟩)
      ⟨"", "tok", none⟩ 0 [] =
      (.error .index, ⟨"", "tok", none⟩, 1, [⟨login_url, true, ""⟩]) ∧
    (Except.error Err.index : Except Err Unit) ≠
      .error (.auth "Invalid username or password") :=
  ⟨rfl, rfl, fun h => Err.noConfusion (Except.error.inj h)⟩

/-- Concrete network for C5: the login page returns 200 with a CSRF token but
no `Set-Cookie` (the pre-login cookie stays empty, which the code tolerates),
and the login POST returns 302 with `Set-Cookie: _iadmin=;` — so the parsed
session cookie is the empty string. -/
def cnetC5 : Net := fun n =>
  match n with
  | 0 => ⟨200, [], "x name=\"csrf-token\" content=\"tok1\" y", none⟩
  | 1 => ⟨302, [("Set-Cookie", "_iadmin=;"), ("Location", "/")], "", none⟩
  | _ => ⟨200, [], "", some (.arr [])⟩

/-- C5 counterexample: the Authentication Flow runs and succeeds, yet the
device-list fetch is issued while the session cookie is still empty (the
login response's `_iadmin` value parsed to `""`), violating the stated
invariant. -/
theorem C5_counterexample :
    update cnetC5 ⟨"", "", some "42"⟩ 0 [] =
      (.ok (some []), ⟨"", "tok1", some "42"⟩, 3,
       [⟨login_url, false, ""⟩, ⟨login_url, true, ""⟩,
        ⟨pyReplace device_url "%account%" "42", false, ""⟩]) ∧
    (⟨pyReplace device_url "%account%" "42", false, ""⟩ : Request) ∈
      (update cnetC5 ⟨"", "", some "42"⟩ 0 []).2.2.2 :=
  ⟨rfl, by decide⟩

/-- C5 amended: when the cookie is empty at entry, `update()` issues the
device fetch only after `_ensure_authenticated` has succeeded, and the fetch
carries the cookie that flow produced — but that cookie is not guaranteed to
be non-empty (see the counterexample), so the fetch can still go out with an
empty cookie. -/
theorem C5_amended_auth_precedes_fetch
    (net : Net) (st st1 : St) (pos pos1 : Nat) (log log1 : List Request) (acct : String)
    (hc : st.cookie = "")
    (he : ensure_authenticated net st pos log = (.ok (), st1, pos1, log1))
    (ha : st1.account_id = some acct) :
    ∃ r st2,
      update net st pos log =
        (.ok r, st2, pos1 + 1,
         log1 ++ [⟨pyReplace device_url "%account%" acct, false, st1.cookie⟩]) := by
  rw [update]
  have hc' : ¬st.cookie ≠ "" := by simp [hc]
  simp only [if_neg hc', he]
  rw [get_device_data, ha]
  simp only [call_api]
  by_cases hs : (net pos1).status = 200
  · rw [if_pos hs]
    cases hj : (net pos1).jsonBody with
    | none => exact ⟨none, st1, by simp⟩
    | some j =>
      cases hu : unwrapDevices j with
      | none => exact ⟨none, st1, by simp [hu]⟩
      | some ds => exact ⟨some ds, st1, by simp [hu]⟩
  · rw [if_neg hs]
    exact ⟨some [], ⟨"", "", some acct⟩, by simp⟩

/-- Witness for the amended C5 at the concrete network of the counterexample. -/
theorem C5_amended_witness :
    ∃ r st2,
      update cnetC5 ⟨"", "", some "42"⟩ 0 [] =
        (.ok r, st2, 2 + 1,
         [⟨login_url, false, ""⟩, ⟨login_url, true, ""⟩] ++
          [⟨pyReplace device_url "%account%" "42", false, ""⟩]) :=
  C5_amended_auth_precedes_fetch cnetC5 ⟨"", "", some "42"⟩ ⟨"", "tok1", some "42"⟩
    0 2 [] [⟨login_url, false, ""⟩, ⟨login_url, true, ""⟩] "42" rfl rfl rfl

/-- C6 counterexample: with `Set-Cookie: _iadmin=a=b;` — the cookie name
followed by `=VALUE;` for `VALUE = "a=b"` — extraction returns `"ab"`, not
`VALUE`, because `parse_cookie` strips every `=` from the captured piece. -/
theorem C6_counterexample :
    parse_cookie [("Set-Cookie", "_iadmin=a=b;")] = .ok "ab" ∧
    ("ab" : String) ≠ "a=b" :=
  ⟨rfl, by decide⟩

/-- C6 amended: cookie extraction returns exactly `VALUE` for a `Set-Cookie`
value of the shape `_iadmin=VALUE;rest`, provided `VALUE` contains no `=` and
no `;` and the cookie name does not reoccur in `=VALUE;rest` (the
counterexample shows the claim fails without the `=`-freeness proviso, and
the code takes the piece after the *first* occurrence of the name and strips
every `=` and everything from the first `;` on). -/
theorem C6_amended_cookie_extraction
    (hdrs : List (String × String)) (v rest : String)
    (hl : hdrs.lookup "Set-Cookie" = some (session_cookie ++ "=" ++ v ++ ";" ++ rest))
    (hv1 : '=' ∉ v.data) (hv2 : ';' ∉ v.data)
    (hocc : findSub session_cookie.data ("=" ++ v ++ ";" ++ rest).data = none) :
    parse_cookie hdrs = .ok v := by
  have hscd : session_cookie.data = '_' :: "iadmin".data := rfl
  have heq : ("=" : String).data = ['='] := rfl
  have hsemi : (";" : String).data = [';'] := rfl
  have htaild : ("=" ++ v ++ ";" ++ rest).data = '=' :: (v.data ++ ';' :: rest.data) := by
    simp [heq, hsemi]
  have hcd : (session_cookie ++ "=" ++ v ++ ";" ++ rest).data
      = session_cookie.data ++ ("=" ++ v ++ ";" ++ rest).data := by
    simp
  have hcne : (session_cookie ++ "=" ++ v ++ ";" ++ rest) ≠ "" := by
    intro h
    have h' := congrArg String.data h
    rw [hcd, hscd] at h'
    simp at h'
  have hsplit1 : pySplitStr session_cookie (session_cookie ++ "=" ++ v ++ ";" ++ rest)
      = ["", "=" ++ v ++ ";" ++ rest] := by
    rw [pySplitStr, hcd, hscd]
    rw [pySplit_append_self '_' ("iadmin".data) _ (by rw [← hscd]; exact hocc)]
    rfl
  have hfs : findSub [';'] (("=" ++ v ++ ";" ++ rest).data)
      = some ('=' :: v.data, rest.data) := by
    rw [htaild]
    have hshape : ('=' :: (v.data ++ ';' :: rest.data))
        = ('=' :: v.data) ++ ';' :: rest.data := by simp
    rw [hshape]
    refine findSub_single_of_notMem ';' ('=' :: v.data) rest.data ?_
    intro hmem
    rcases List.mem_cons.mp hmem with h | h
    · exact absurd h (by decide)
    · exact hv2 h
  have hsplit2 : pySplitStr ";" ("=" ++ v ++ ";" ++ rest)
      = String.mk ('=' :: v.data) ::
        (pySplit [';'] rest.data).map (fun l => String.mk l) := by
    rw [pySplitStr]
    rw [show (";" : String).data = [';'] from rfl]
    rw [pySplit_of_some [';'] _ ('=' :: v.data) rest.data (by simp) hfs]
    rfl
  have hrm : removeEq ('=' :: v.data) = v.data := by
    rw [removeEq, List.filter_cons]
    simp only [beq_self_eq_true, Bool.not_true, Bool.false_eq_true, if_false]
    refine List.filter_eq_self.mpr (fun a ha => ?_)
    have hne : a ≠ '=' := fun he => hv1 (he ▸ ha)
    simp [hne]
  rw [parse_cookie]
  simp only [hl]
  rw [if_neg hcne]
  simp only [hsplit1, List.get?_cons_succ, List.get?_cons_zero]
  simp only [hsplit2, List.headD_cons]
  simp only [hrm]

/-- Witness for the amended C6 with `VALUE = "abc123"`. -/
theorem C6_amended_witness :
    parse_cookie [("Set-Cookie", session_cookie ++ "=" ++ "abc123" ++ ";" ++ " path=/x")]
      = .ok "abc123" :=
  C6_amended_cookie_extraction
    [("Set-Cookie", session_cookie ++ "=" ++ "abc123" ++ ";" ++ " path=/x")]
    "abc123" " path=/x" rfl (by decide) (by decide) rfl

/-- C8: starting from a fully authenticated state (so the initial
ensure-authenticated step is a no-op), `sendMessage` never mutates the session
state; it raises `AuthenticationError` exactly in the three cases — message
page GET non-200, CSRF extraction failure, final POST non-200 — succeeds when
none of them applies, and every error it can raise is an
`AuthenticationError`. -/
theorem C8_send_message_classification
    (net : Net) (st : St) (pos : Nat) (log : List Request)
    (did msg : String) (title : Option String)
    (h1 : st.cookie ≠ "") (h2 : st.csrf ≠ "") (h3 : truthy st.account_id = true) :
    (send_device_message net st pos log did msg title).2.1 = st ∧
    ((net pos).status ≠ 200 →
      send_device_message net st pos log did msg title =
        (.error (.auth "Unable to access message page"), st, pos + 1,
         log ++ [⟨messages_url did, false, st.cookie⟩])) ∧
    ((net pos).status = 200 → (∀ tok, parse_csrf (net pos).body ≠ .ok tok) →
      send_device_message net st pos log did msg title =
        (.error (.auth "CSRF token missing"), st, pos + 1,
         log ++ [⟨messages_url did, false, st.cookie⟩])) ∧
    (∀ tok, (net pos).status = 200 → parse_csrf (net pos).body = .ok tok →
      (net (pos + 1)).status ≠ 200 →
      send_device_message net st pos log did msg title =
        (.error (.auth "Failed to send message"), st, pos + 1 + 1,
         log ++ [⟨messages_url did, false, st.cookie⟩, ⟨messages_url did, true, st.cookie⟩])) ∧
    (∀ tok, (net pos).status = 200 → parse_csrf (net pos).body = .ok tok →
      (net (pos + 1)).status = 200 →
      send_device_message net st pos log did msg title =
        (.ok (), st, pos + 1 + 1,
         log ++ [⟨messages_url did, false, st.cookie⟩, ⟨messages_url did, true, st.cookie⟩])) ∧
    (∀ e, (send_device_message net st pos log did msg title).1 = .error e →
      ∃ m, e = .auth m) := by
  have hens := ensure_authenticated_noop net st pos log h1 h2 h3
  have hbody : send_device_message net st pos log did msg title =
      (if (net pos).status ≠ 200 then
        (.error (.auth "Unable to access message page"), st, pos + 1,
         log ++ [⟨messages_url did, false, st.cookie⟩])
      else
        match parse_csrf (net pos).body with
        | .error _ =>
          (.error (.auth "CSRF token missing"), st, pos + 1,
           log ++ [⟨messages_url did, false, st.cookie⟩])
        | .ok _ =>
          if (net (pos + 1)).status ≠ 200 then
            (.error (.auth "Failed to send message"), st, pos + 1 + 1,
             log ++ [⟨messages_url did, false, st.cookie⟩, ⟨messages_url did, true, st.cookie⟩])
          else
            (.ok (), st, pos + 1 + 1,
             log ++ [⟨messages_url did, false, st.cookie⟩, ⟨messages_url did, true, st.cookie⟩])) := by
    rw [send_device_message]
    simp only [hens, call_api, List.append_assoc, List.singleton_append]
  refine ⟨?_, ?_, ?_, ?_, ?_, ?_⟩
  · rw [hbody]
    by_cases hs1 : (net pos).status ≠ 200
    · rw [if_pos hs1]
    · rw [if_neg hs1]
      cases hp : parse_csrf (net pos).body with
      | error e => rfl
      | ok tok =>
        by_cases hs2 : (net (pos + 1)).status ≠ 200
        · rw [if_pos hs2]
        · rw [if_neg hs2]
  · intro hs1
    rw [hbody, if_pos hs1]
  · intro hs1 hp
    rw [hbody, if_neg (by simpa using hs1)]
    cases hpc : parse_csrf (net pos).body with
    | error e => rfl
    | ok tok => exact absurd hpc (hp tok)
  · intro tok hs1 hpc hs2
    rw [hbody, if_neg (by simpa using hs1)]
    simp only [hpc]
    rw [if_pos hs2]
  · intro tok hs1 hpc hs2
    rw [hbody, if_neg (by simpa using hs1)]
    simp only [hpc]
    rw [if_neg (by simpa using hs2)]
  · intro e he
    rw [hbody] at he
    by_cases hs1 : (net pos).status ≠ 200
    · rw [if_pos hs1] at he
      exact ⟨"Unable to access message page", by simpa using he.symm⟩
    · rw [if_neg hs1] at he
      cases hpc : parse_csrf (net pos).body with
      | error e2 =>
        rw [hpc] at he
        exact ⟨"CSRF token missing", by simpa using he.symm⟩
      | ok tok =>
        rw [hpc] at he
        by_cases hs2 : (net (pos + 1)).status ≠ 200
        · rw [if_pos hs2] at he
          exact ⟨"Failed to send message", by simpa using he.symm⟩
        · rw [if_neg hs2] at he
          simp at he

/-- Concrete network for the C8 witness: the message page and the POST both
return 200, and the page body carries a CSRF marker. -/
def cnetC8 : Net := fun _ =>
  ⟨200, [], "q name=\"csrf-token\" content=\"ptok\" r", none⟩

/-- Witness for C8: a successful send that leaves the state untouched. -/
theorem C8_witness :
    (send_device_message cnetC8 ⟨"ck", "tok", some "42"⟩ 0 [] "d1" "hi" none).2.1 =
      ⟨"ck", "tok", some "42"⟩ ∧
    send_device_message cnetC8 ⟨"ck", "tok", some "42"⟩ 0 [] "d1" "hi" none =
      (.ok (), ⟨"ck", "tok", some "42"⟩, 0 + 1 + 1,
       [] ++ [⟨messages_url "d1", false, "ck"⟩, ⟨messages_url "d1", true, "ck"⟩]) :=
  ⟨(C8_send_message_classification cnetC8 ⟨"ck", "tok", some "42"⟩ 0 [] "d1" "hi" none
      (by decide) (by decide) rfl).1,
   (C8_send_message_classification cnetC8 ⟨"ck", "tok", some "42"⟩ 0 [] "d1" "hi" none
      (by decide) (by decide) rfl).2.2.2.2.1 "ptok" rfl rfl rfl⟩

end One2Track
